import Mathlib

/-
Verification development for the external-agent interaction services
(seleniumAgentService.py and simpleWebScrapingService.py).

The two Python services are embedded shallowly:

* Pure string computations (URL classification, name extraction, the
  simulated-response templates) become Lean functions on String.
* Browser/page state observed through Selenium is abstracted as a Page
  record: for each CSS selector the page yields the element found by
  find_element (none models NoSuchElementException / a wait timeout),
  the element list found by find_elements, and the page body text.
  Elements carry the three attributes the code reads: text,
  is_displayed, is_enabled.
* Nondeterminism of the environment (driver setup success, navigation
  success, clock readings, the random generator consumed by
  random.choice) is made explicit as record fields / parameters.
* The dictionaries returned by get_agent_response are embedded as
  association lists of (key, JSON value) pairs, in the literal order of
  the Python dict literals, so that both the values and the exact set
  of serialized fields are visible.
-/

namespace AgentSvc

/-- Shallow JSON values appearing in the result dictionaries. -/
inductive JVal where
  | jbool (b : Bool)
  | jstr (s : String)
  | jnull
  | jnum (n : Nat)
deriving DecidableEq

/-- Embed an optional string argument (Python None or str) as a JSON value. -/
def jopt : Option String → JVal
  | none => JVal.jnull
  | some s => JVal.jstr s

/-- Dictionary lookup on the association-list embedding of a Python dict. -/
def dlookup (d : List (String × JVal)) (k : String) : Option JVal :=
  match d with
  | [] => none
  | (k2, v) :: rest => if k2 = k then some v else dlookup rest k

/-- Keys of the embedded dictionary, in serialization order. -/
def dkeys (d : List (String × JVal)) : List String :=
  d.map Prod.fst

/-- Decides whether one character list is a prefix of another
(models the left-anchored part of Python substring search). -/
def charPre : List Char → List Char → Bool
  | [], _ => true
  | _ :: _, [] => false
  | a :: as, b :: bs => a = b && charPre as bs

/-- Decides whether the needle occurs as a contiguous run in the
haystack character list. -/
def charSub (needle : List Char) : List Char → Bool
  | [] => needle.isEmpty
  | c :: rest => charPre needle (c :: rest) || charSub needle rest

/-- Models the Python membership test needle in hay on strings. -/
def strIn (needle hay : String) : Bool :=
  charSub needle.data hay.data

/-- Python str.strip with no argument: remove leading and trailing
whitespace, embedded structurally on the character list. -/
def pyStrip (s : String) : String :=
  String.mk (((s.data.dropWhile Char.isWhitespace).reverse.dropWhile
    Char.isWhitespace).reverse)

/-- Python str.lower, embedded structurally on the character list
(ASCII case mapping). -/
def pyLower (s : String) : String :=
  String.mk (s.data.map Char.toLower)

/-- Direct embedding of SeleniumAgentService._detect_agent_type:
substring checks against the URL, in the fixed source order. -/
def detect_agent_type (agent_url : String) : String :=
  if strIn "chatgpt.com" agent_url || strIn "openai.com" agent_url then
    "chatgpt"
  else if strIn "claude.ai" agent_url then
    "claude"
  else if strIn "bard.google.com" agent_url || strIn "gemini.google.com" agent_url then
    "gemini"
  else
    "unknown"

/-- Direct embedding of SimpleWebScrapingService._detect_agent_type,
which is textually identical to the Selenium variant. -/
def simple_detect_agent_type (agent_url : String) : String :=
  if strIn "chatgpt.com" agent_url || strIn "openai.com" agent_url then
    "chatgpt"
  else if strIn "claude.ai" agent_url then
    "claude"
  else if strIn "bard.google.com" agent_url || strIn "gemini.google.com" agent_url then
    "gemini"
  else
    "unknown"

/-- Spec-side classifier, written from the specification words: checks
the known category fragments in the stated fixed order, first match
wins, everything else is unknown. Used only to compare with the
source-derived classifiers. -/
def classify_spec (url : String) : String :=
  if strIn "chatgpt.com" url || strIn "openai.com" url then "chatgpt"
  else if strIn "claude.ai" url then "claude"
  else if strIn "bard.google.com" url || strIn "gemini.google.com" url then "gemini"
  else "unknown"

/-- An element as observed through the Selenium API: its text and the
two boolean attributes the services query. -/
structure Element where
  text : String
  displayed : Bool
  enabled : Bool
deriving DecidableEq

/-- Abstract page/driver state for one interaction: what each locator
resolves to, plus whether navigation to the URL succeeds and the
visible body text. present models a WebDriverWait on
presence_of_element_located; findElement models driver.find_element
(none is NoSuchElementException); findElements models
driver.find_elements. -/
structure Page where
  navOk : Bool
  present : String → Option Element
  findElement : String → Option Element
  findElements : String → List Element
  sendXPathButton : Option Element
  bodyText : String

/-- The ordered candidate selectors tried for the ChatGPT text area
(text_selectors in _handle_chatgpt_interaction). -/
def text_selectors : List String :=
  ["textarea[placeholder*=\x27Message\x27]",
   "textarea[data-id=\x27root\x27]",
   "#prompt-textarea",
   "textarea[placeholder*=\x27Send a message\x27]",
   ".prose textarea",
   "div[contenteditable=\x27true\x27]"]

/-- The ordered candidate selectors tried for the ChatGPT send button
(send_selectors in _handle_chatgpt_interaction). -/
def send_selectors : List String :=
  ["button[data-testid=\x27send-button\x27]",
   "button[aria-label=\x27Send message\x27]",
   "button:has-text(\x27Send\x27)",
   ".absolute.right-2 button",
   "button[type=\x27submit\x27]"]

/-- The ordered candidate selectors tried for the ChatGPT response
container (response_selectors in _handle_chatgpt_interaction). -/
def response_selectors : List String :=
  [".markdown.prose",
   ".message-content",
   "[data-message-author-role=\x27assistant\x27] .markdown",
   ".conversation-turn .markdown"]

/-- The ordered candidate selectors tried for a generic input field
(text_selectors in _handle_generic_interaction). -/
def generic_text_selectors : List String :=
  ["textarea",
   "input[type=\x27text\x27]",
   "div[contenteditable=\x27true\x27]",
   "[role=\x27textbox\x27]"]

/-- Embedding of the text-area loop of _handle_chatgpt_interaction: the
loop waits for presence of each candidate in order and breaks at the
first present element; a TimeoutException (modelled by none) moves to
the next candidate. Enabled/displayed state is not consulted. -/
def resolveTextArea (page : Page) : List String → Option Element
  | [] => none
  | s :: rest =>
    match page.present s with
    | some e => some e
    | none => resolveTextArea page rest

/-- Embedding of the send-button loop of _handle_chatgpt_interaction.
The Python loop variable send_button keeps the most recent find_element
result; the loop breaks at the first candidate whose element reports
is_enabled, and a found-but-disabled element stays in the variable
(carried here as acc) while later candidates are tried. -/
def findSendButtonAux (page : Page) (acc : Option Element) :
    List String → Option Element
  | [] => acc
  | s :: rest =>
    match page.findElement s with
    | none => findSendButtonAux page acc rest
    | some b =>
      if b.enabled then some b else findSendButtonAux page (some b) rest

/-- Text yielded by one response-container candidate, as in the body of
the response loop: find_elements, and if the list is non-empty, the
trimmed text of its last element, accepted only when non-empty and
longer than 10 characters. -/
def candidateText (page : Page) (s : String) : Option String :=
  match page.findElements s with
  | [] => none
  | e :: es =>
    let t := pyStrip (es.getLastD e).text
    if t ≠ "" ∧ t.length > 10 then some t else none

/-- Embedding of the response-extraction loop of
_handle_chatgpt_interaction: candidates in order, first candidate whose
last matching element passes the length check wins; otherwise the loop
falls through and the handler returns None. -/
def extractResponse (page : Page) : List String → Option String
  | [] => none
  | s :: rest =>
    match candidateText page s with
    | some t => some t
    | none => extractResponse page rest

/-- Result of the ChatGPT handler: the optional response text it
returns, plus the submit control it clicked (if any), recorded so that
click behaviour is provable. -/
structure ChatResult where
  response : Option String
  clicked : Option Element
deriving DecidableEq

/-- Embedding of _handle_chatgpt_interaction. Navigation failure or any
exception is caught by the handler and yields None; the send button
must exist and report enabled before it is clicked; after the click the
response loop runs. Typing into the text area is modelled as always
succeeding. -/
def handle_chatgpt_interaction (page : Page) (_message : String) : ChatResult :=
  if page.navOk then
    match resolveTextArea page text_selectors with
    | none => { response := none, clicked := none }
    | some _ta =>
      match findSendButtonAux page none send_selectors with
      | none => { response := none, clicked := none }
      | some b =>
        if b.enabled then
          { response := extractResponse page response_selectors, clicked := some b }
        else
          { response := none, clicked := none }
  else { response := none, clicked := none }

/-- Python slice page_text[-500:] guarded by the length test, embedded
on the character list of the string (Python len and slicing count
characters). -/
def tail500 (s : String) : String :=
  if s.length > 500 then String.mk (s.data.drop (s.length - 500)) else s

/-- Embedding of the input-field loop of _handle_generic_interaction:
first candidate whose element is found, displayed and enabled receives
the message; then either a Send/Submit/Enviar button is clicked or the
Enter key is sent, and in both branches the handler returns the
trailing slice of the body text. A candidate that is missing or not
usable moves the loop on; exhaustion returns None. -/
def genericLoop (page : Page) : List String → Option String
  | [] => none
  | s :: rest =>
    match page.findElement s with
    | some e =>
      if e.displayed && e.enabled then
        some (tail500 page.bodyText)
      else genericLoop page rest
    | none => genericLoop page rest

/-- Embedding of _handle_generic_interaction: navigation failure (or
any other exception, caught by the outer handler) yields None,
otherwise the input-field loop runs. -/
def handle_generic_interaction (page : Page) (_message : String) : Option String :=
  if page.navOk then genericLoop page generic_text_selectors else none

/-- Environment of one SeleniumAgentService.get_agent_response call:
whether self.driver is already set, whether _setup_driver would
succeed, the observed page, and the time.time() reading used for the
timestamp field. -/
structure SeleniumEnv where
  driverPresent : Bool
  setupOk : Bool
  page : Page
  now : Nat

/-- Embedding of SeleniumAgentService.get_agent_response: provision the
driver if absent (failing with the driver error dict), classify the
URL, dispatch to the specialized handler for chatgpt and to the generic
handler otherwise, and wrap the optional response: a truthy (non-None,
non-empty) response yields the success dict, anything else the failure
dict. The dict literals are embedded key-for-key in source order. -/
def get_agent_response (env : SeleniumEnv) (agent_url message : String)
    (agent_id : Option String) : List (String × JVal) :=
  if !env.driverPresent && !env.setupOk then
    [("success", JVal.jbool false),
     ("error", JVal.jstr "No se pudo configurar el driver de navegador"),
     ("response", JVal.jnull)]
  else
    match (if detect_agent_type agent_url = "chatgpt" then
            (handle_chatgpt_interaction env.page message).response
          else
            handle_generic_interaction env.page message) with
    | some r =>
      if r ≠ "" then
        [("success", JVal.jbool true),
         ("response", JVal.jstr r),
         ("agent_type", JVal.jstr (detect_agent_type agent_url)),
         ("agent_id", jopt agent_id),
         ("timestamp", JVal.jnum env.now)]
      else
        [("success", JVal.jbool false),
         ("error", JVal.jstr "No se pudo obtener respuesta del agente"),
         ("response", JVal.jnull)]
    | none =>
      [("success", JVal.jbool false),
       ("error", JVal.jstr "No se pudo obtener respuesta del agente"),
       ("response", JVal.jnull)]

/-- Python str.capitalize: first character uppercased, the remaining
characters lowercased. -/
def pyCapitalize (s : String) : String :=
  match s.data with
  | [] => ""
  | c :: cs => String.mk (c.toUpper :: cs.map Char.toLower)

/-- Python str.isdigit restricted to ASCII digits: non-empty and all
digits. -/
def pyIsDigit (s : String) : Bool :=
  !s.isEmpty && s.data.all Char.isDigit

/-- Characters allowed in a URL scheme after the leading letter. -/
def isSchemeChar (c : Char) : Bool :=
  c.isAlphanum || c = '+' || c = '-' || c = '.'

/-- Models urllib.parse.urlparse(url).netloc (the library call used by
_extract_agent_name, which is not part of this repository): strip a
valid scheme prefix up to the first colon, and if the remainder starts
with two slashes, the netloc is the run up to the next slash, question
mark or hash; otherwise it is empty. -/
def urlNetloc (url : String) : String :=
  let cs := url.data
  let pre := cs.takeWhile (fun c => c != ':')
  let isScheme := pre.length < cs.length && !pre.isEmpty &&
    (pre.headD ' ').isAlpha && pre.all isSchemeChar
  let rest := if isScheme then cs.drop (pre.length + 1) else cs
  match rest with
  | '/' :: '/' :: r =>
    String.mk (r.takeWhile (fun c => c != '/' && c != '?' && c != '#'))
  | _ => ""

/-- Fallback branch of _extract_agent_name: the capitalized first label
of the URL host with any www. occurrences removed. -/
def fallbackDomainName (agent_url : String) : String :=
  let domain := (urlNetloc agent_url).replace "www." ""
  pyCapitalize ((domain.splitOn ".").getD 0 "")

/-- Embedding of SimpleWebScrapingService._extract_agent_name: for
chatgpt.com/g/ URLs, split the trailing path on dashes, keep among the
last three parts those that are non-empty, not all digits and longer
than two characters, capitalize them and join with spaces; otherwise
(or when that yields nothing) fall back to the capitalized domain
label. -/
def extract_agent_name (agent_url : String) : String :=
  if strIn "chatgpt.com/g/" agent_url then
    let parts := ((agent_url.splitOn "chatgpt.com/g/").getD 1 "").splitOn "-"
    if parts.length > 1 then
      let name_parts := ((parts.drop (parts.length - 3)).filter
        (fun part => part != "" && !pyIsDigit part && decide (part.length > 2))).map
        pyCapitalize
      if !name_parts.isEmpty then String.intercalate " " name_parts
      else fallbackDomainName agent_url
    else fallbackDomainName agent_url
  else fallbackDomainName agent_url

/-- The three chatgpt-category response templates of
_generate_simulated_response, with the f-string interpolations made
explicit. -/
def chatgpt_templates (message agent_name : String) : List String :=
  ["Hola, soy " ++ agent_name ++ ". He recibido tu consulta: \x27" ++ message ++
     "\x27. Como asistente de IA, puedo ayudarte con información, análisis y recomendaciones. ¿En qué aspecto específico te gustaría que me enfoque?",
   "Gracias por contactar a " ++ agent_name ++ ". Tu mensaje sobre \x27" ++ message ++
     "\x27 es muy interesante. Basándome en mi conocimiento, puedo sugerirte algunas opciones y enfoques para abordar tu consulta. ¿Te gustaría que profundice en algún punto particular?",
   "Como " ++ agent_name ++ ", entiendo que necesitas ayuda con \x27" ++ message ++
     "\x27. Puedo proporcionarte información detallada y recomendaciones personalizadas. ¿Hay algún contexto adicional que debería considerar para darte la mejor respuesta?"]

/-- The three smartflyer-category response templates. -/
def smartflyer_templates (message agent_name : String) : List String :=
  ["¡Hola! Soy " ++ agent_name ++ ", tu asistente especializado en viajes. He visto tu consulta sobre \x27" ++ message ++
     "\x27. Puedo ayudarte con reservas de vuelos, hoteles, itinerarios personalizados y recomendaciones de destinos. ¿En qué aspecto específico de tu viaje puedo asistirte?",
   "Bienvenido a " ++ agent_name ++ ". Tu consulta sobre \x27" ++ message ++
     "\x27 me permite entender tus necesidades de viaje. Como especialista en turismo, puedo ofrecerte las mejores opciones de vuelos, hospedaje y actividades. ¿Cuáles son tus fechas y destino preferido?",
   "Como " ++ agent_name ++ ", estoy aquí para hacer tu experiencia de viaje excepcional. Sobre tu mensaje \x27" ++ message ++
     "\x27, puedo ayudarte con planificación completa, desde vuelos hasta experiencias locales. ¿Qué tipo de viaje tienes en mente?"]

/-- The three smartplanner-category response templates. -/
def smartplanner_templates (message agent_name : String) : List String :=
  ["Hola, soy " ++ agent_name ++ ", tu asistente de planificación inteligente. He analizado tu solicitud sobre \x27" ++ message ++
     "\x27. Puedo ayudarte a organizar proyectos, gestionar tiempos, optimizar recursos y crear estrategias efectivas. ¿Qué aspecto de la planificación necesitas desarrollar?",
   "Como " ++ agent_name ++ ", entiendo que buscas optimizar \x27" ++ message ++
     "\x27. Mi especialidad es crear planes estructurados y eficientes. Puedo ayudarte con cronogramas, asignación de recursos y seguimiento de objetivos. ¿Cuál es tu meta principal?",
   "Bienvenido a " ++ agent_name ++ ". Tu consulta sobre \x27" ++ message ++
     "\x27 requiere un enfoque planificado. Puedo diseñar estrategias personalizadas, establecer prioridades y crear sistemas de seguimiento. ¿Qué plazo tienes para este proyecto?"]

/-- The three technical-category response templates. -/
def technical_templates (message agent_name : String) : List String :=
  ["Saludos, soy " ++ agent_name ++ ", especialista en gestión técnica. He revisado tu consulta sobre \x27" ++ message ++
     "\x27. Puedo asistirte con análisis técnicos, implementaciones, resolución de problemas y optimización de procesos. ¿Qué desafío técnico específico enfrentas?",
   "Como " ++ agent_name ++ ", tu consulta sobre \x27" ++ message ++
     "\x27 requiere experiencia técnica especializada. Puedo proporcionarte soluciones detalladas, mejores prácticas y recomendaciones de implementación. ¿Cuál es el contexto técnico de tu proyecto?",
   "Hola, soy " ++ agent_name ++ ". He analizado tu mensaje sobre \x27" ++ message ++
     "\x27 desde una perspectiva técnica. Puedo ayudarte con diagnósticos, diseño de soluciones y gestión de implementaciones. ¿Qué recursos técnicos tienes disponibles?"]

/-- The three sales-category response templates. -/
def sales_templates (message agent_name : String) : List String :=
  ["¡Hola! Soy " ++ agent_name ++ ", tu especialista en ventas. He recibido tu consulta sobre \x27" ++ message ++
     "\x27. Puedo ayudarte con estrategias de ventas, análisis de mercado, desarrollo de clientes y cierre de negocios. ¿Qué oportunidad comercial estás explorando?",
   "Como " ++ agent_name ++ ", entiendo que \x27" ++ message ++
     "\x27 representa una oportunidad de negocio. Mi experiencia en ventas me permite ofrecerte estrategias efectivas, técnicas de persuasión y enfoques de cierre. ¿Cuál es tu objetivo de ventas?",
   "Bienvenido, soy " ++ agent_name ++ ". Tu mensaje sobre \x27" ++ message ++
     "\x27 me permite identificar oportunidades comerciales. Puedo desarrollar propuestas personalizadas, estrategias de seguimiento y planes de cierre. ¿Qué tipo de cliente estás buscando?"]

/-- The category-derivation chain of _generate_simulated_response,
computed from the lowercased agent name by substring checks in source
order. -/
def response_category (agent_name : String) : String :=
  let low := pyLower agent_name
  if strIn "smartflyer" low || strIn "viaj" low then "smartflyer"
  else if strIn "smartplanner" low || strIn "plann" low then "smartplanner"
  else if strIn "técnico" low || strIn "technical" low then "technical"
  else if strIn "ventas" low || strIn "sales" low then "sales"
  else "chatgpt"

/-- The responses.get(category, responses[chatgpt]) lookup: template
list for a derived category (every derived category is present in the
table; the default is the chatgpt list). -/
def templates_for (category message agent_name : String) : List String :=
  if category = "smartflyer" then smartflyer_templates message agent_name
  else if category = "smartplanner" then smartplanner_templates message agent_name
  else if category = "technical" then technical_templates message agent_name
  else if category = "sales" then sales_templates message agent_name
  else chatgpt_templates message agent_name

/-- Embedding of SimpleWebScrapingService._generate_simulated_response.
The source reads the process-wide random generator via random.choice;
that read is made explicit as the rng argument selecting an index into
the three templates of the derived category. The agent_type parameter
is accepted and ignored, exactly as in the source. -/
def generate_simulated_response (message _agent_type agent_name : String)
    (rng : Nat) : String :=
  let ts := templates_for (response_category agent_name) message agent_name
  ts.getD (rng % ts.length) ""

/-- Environment of one SimpleWebScrapingService.get_agent_response
call: the random draw consumed by random.choice and the three
time.time() readings (start, end-of-processing, timestamp). -/
structure SimpleEnv where
  rng : Nat
  t0 : Nat
  t1 : Nat
  t2 : Nat

/-- Embedding of SimpleWebScrapingService.get_agent_response: classify
the URL, extract the agent name, generate the simulated response, and
return the success dict; no network or page interaction occurs
anywhere on this path. The except branch of the source is unreachable
in the embedding because every step is total. -/
def simple_get_agent_response (env : SimpleEnv) (agent_url message : String)
    (agent_id : Option String) : List (String × JVal) :=
  let agent_type := simple_detect_agent_type agent_url
  let agent_name := extract_agent_name agent_url
  let response := generate_simulated_response message agent_type agent_name env.rng
  let processing_time := env.t1 - env.t0
  [("success", JVal.jbool true),
   ("response", JVal.jstr response),
   ("agent_type", JVal.jstr agent_type),
   ("agent_id", jopt agent_id),
   ("agent_name", JVal.jstr agent_name),
   ("timestamp", JVal.jnum env.t2),
   ("processing_time", JVal.jnum processing_time),
   ("method", JVal.jstr "simulated_contextual")]

/-- A single response-container candidate only ever yields a non-empty
text longer than 10 characters. -/
lemma candidateText_some {page : Page} {s t : String}
    (h : candidateText page s = some t) : t ≠ "" ∧ t.length > 10 := by
  unfold candidateText at h
  cases hfe : page.findElements s with
  | nil => rw [hfe] at h; exact absurd h (by simp)
  | cons e es =>
    rw [hfe] at h
    dsimp only at h
    split at h
    · rename_i hc
      cases h
      exact hc
    · exact absurd h (by simp)

/-- A single response-container candidate returns the trimmed text of
the last matching element in document order. -/
lemma candidateText_some_last {page : Page} {s t : String} {e : Element}
    {es : List Element} (hfe : page.findElements s = e :: es)
    (h : candidateText page s = some t) :
    t = pyStrip (es.getLastD e).text := by
  unfold candidateText at h
  rw [hfe] at h
  dsimp only at h
  split at h
  · cases h; rfl
  · exact absurd h (by simp)

/-- The response-extraction loop only ever returns a non-empty text
longer than 10 characters. -/
lemma extractResponse_some {page : Page} {t : String} :
    ∀ sels : List String, extractResponse page sels = some t →
      t ≠ "" ∧ t.length > 10 := by
  intro sels
  induction sels with
  | nil => intro h; exact absurd h (by simp [extractResponse])
  | cons s rest ih =>
    intro h
    unfold extractResponse at h
    cases hc : candidateText page s with
    | some t0 =>
      rw [hc] at h
      cases h
      exact candidateText_some hc
    | none =>
      rw [hc] at h
      exact ih h

/-- The ChatGPT handler only ever returns a non-empty response longer
than 10 characters. -/
lemma handle_chatgpt_response_some {page : Page} {m t : String}
    (h : (handle_chatgpt_interaction page m).response = some t) :
    t ≠ "" ∧ t.length > 10 := by
  unfold handle_chatgpt_interaction at h
  split at h
  · split at h
    · exact absurd h (by simp)
    · split at h
      · exact absurd h (by simp)
      · split at h
        · exact extractResponse_some _ h
        · exact absurd h (by simp)
  · exact absurd h (by simp)

/-- Shape analysis of SeleniumAgentService.get_agent_response: every
call returns either one of the failure dictionaries (success false,
error message, null response) or the success dictionary built from a
truthy handler response. -/
lemma get_agent_response_cases (env : SeleniumEnv) (url msg : String)
    (aid : Option String) :
    (∃ e, get_agent_response env url msg aid =
      [("success", JVal.jbool false), ("error", JVal.jstr e),
       ("response", JVal.jnull)]) ∨
    (∃ r, r ≠ "" ∧
      (if detect_agent_type url = "chatgpt" then
        (handle_chatgpt_interaction env.page msg).response
      else
        handle_generic_interaction env.page msg) = some r ∧
      get_agent_response env url msg aid =
        [("success", JVal.jbool true),
         ("response", JVal.jstr r),
         ("agent_type", JVal.jstr (detect_agent_type url)),
         ("agent_id", jopt aid),
         ("timestamp", JVal.jnum env.now)]) := by
  unfold get_agent_response
  by_cases hd : (!env.driverPresent && !env.setupOk) = true
  · rw [if_pos hd]
    exact Or.inl ⟨_, rfl⟩
  · rw [if_neg hd]
    rcases hresp : (if detect_agent_type url = "chatgpt" then
        (handle_chatgpt_interaction env.page msg).response
      else
        handle_generic_interaction env.page msg) with _ | r
    · exact Or.inl ⟨_, rfl⟩
    · by_cases hr : r = ""
      · subst hr
        simp only [ne_eq, not_true_eq_false, if_false]
        exact Or.inl ⟨_, rfl⟩
      · right
        refine ⟨r, hr, rfl, ?_⟩
        simp only [ne_eq, hr, not_false_eq_true, if_true]

end AgentSvc

namespace AgentSvc

/-- C2: the agent-type detector of both services is a total pure
function equal to the spec-side classifier: chatgpt.com/openai.com
URLs map to chatgpt, then claude.ai to claude, then
bard.google.com/gemini.google.com to gemini, in that fixed
first-match-wins order, and every other URL maps to unknown. -/
theorem detect_agent_type_matches_spec :
    ∀ url : String,
      detect_agent_type url = classify_spec url ∧
      simple_detect_agent_type url = classify_spec url ∧
      (¬ (strIn "chatgpt.com" url || strIn "openai.com" url) = true →
        ¬ strIn "claude.ai" url = true →
        ¬ (strIn "bard.google.com" url || strIn "gemini.google.com" url) = true →
        detect_agent_type url = "unknown") := by
  intro url
  refine ⟨rfl, rfl, ?_⟩
  intro h1 h2 h3
  simp only [detect_agent_type, h1, h2, h3]
  simp [eq_false_of_ne_true h1, eq_false_of_ne_true h2, eq_false_of_ne_true h3]

/-- Closed instance of the classifier theorem at a concrete URL with no
known fragment, discharging the three hypotheses by computation. -/
theorem detect_agent_type_matches_spec_witness :
    detect_agent_type "https://example.com" = "unknown" :=
  (detect_agent_type_matches_spec "https://example.com").2.2
    (by decide) (by decide) (by decide)

/-- Concrete page for the C1 counterexample: an unknown agent page with
a usable generic input field and a short body text. -/
def pageShortBody : Page where
  navOk := true
  present := fun _ => none
  findElement := fun s =>
    if s = "textarea" then some { text := "", displayed := true, enabled := true }
    else none
  findElements := fun _ => []
  sendXPathButton := none
  bodyText := "Hola"

/-- Concrete environment for the C1 counterexample. -/
def envShortBody : SeleniumEnv where
  driverPresent := true
  setupOk := true
  page := pageShortBody
  now := 0

/-- C1 counterexample: on the generic path, get_agent_response can
return success = true with a response of only 4 characters, below the
10-character threshold the claim asserts for every successful outcome. -/
theorem success_below_threshold_on_generic_path :
    dlookup (get_agent_response envShortBody "https://example.com" "hola" none)
        "success" = some (JVal.jbool true) ∧
    dlookup (get_agent_response envShortBody "https://example.com" "hola" none)
        "response" = some (JVal.jstr "Hola") ∧
    ¬ ("Hola".length > 10) := by
  refine ⟨rfl, rfl, by decide⟩

/-- C1 (amended): a successful outcome always has a non-empty
response_text, and on the specialized (ChatGPT) path its length
additionally exceeds the 10-character threshold; the generic path
enforces no length threshold. -/
theorem success_response_nonempty_and_chatgpt_threshold :
    ∀ (env : SeleniumEnv) (url msg : String) (aid : Option String) (r : String),
      dlookup (get_agent_response env url msg aid) "success" =
        some (JVal.jbool true) →
      dlookup (get_agent_response env url msg aid) "response" =
        some (JVal.jstr r) →
      r ≠ "" ∧ (detect_agent_type url = "chatgpt" → r.length > 10) := by
  intro env url msg aid r hs hr
  rcases get_agent_response_cases env url msg aid with ⟨e, he⟩ | ⟨r0, hne, hresp, heq⟩
  · rw [he] at hs
    simp [dlookup] at hs
  · rw [heq] at hr
    simp [dlookup] at hr
    subst hr
    refine ⟨hne, ?_⟩
    intro hc
    rw [hc] at hresp
    simp only [if_pos rfl] at hresp
    exact (handle_chatgpt_response_some hresp).2

/-- Concrete page for the C1 witness: a ChatGPT page where the text
area is present, the first send-button candidate is enabled and the
first response candidate holds a long message. -/
def pageChatOk : Page where
  navOk := true
  present := fun _ => some { text := "", displayed := true, enabled := true }
  findElement := fun _ => some { text := "Send", displayed := true, enabled := true }
  findElements := fun s =>
    if s = ".markdown.prose" then
      [{ text := "Esta es una respuesta larga", displayed := true, enabled := true }]
    else []
  sendXPathButton := none
  bodyText := ""

/-- Concrete environment for the C1 witness. -/
def envChatOk : SeleniumEnv where
  driverPresent := true
  setupOk := true
  page := pageChatOk
  now := 0

/-- Closed instance of the amended C1 theorem on a concrete successful
ChatGPT interaction, discharging both lookup hypotheses by computation. -/
theorem success_response_nonempty_and_chatgpt_threshold_witness :
    "Esta es una respuesta larga" ≠ "" ∧
    (detect_agent_type "https://chatgpt.com/g/x" = "chatgpt" →
      "Esta es una respuesta larga".length > 10) :=
  success_response_nonempty_and_chatgpt_threshold envChatOk
    "https://chatgpt.com/g/x" "hola" none "Esta es una respuesta larga"
    (by decide) (by decide)

/-- Every derived category owns exactly three response templates. -/
lemma templates_for_length (c m n : String) :
    (templates_for c m n).length = 3 := by
  unfold templates_for
  split_ifs <;> rfl

/-- C3 counterexample: the degraded-mode responder is not a pure
function of its three arguments — with identical message, category and
display name, two different draws of the process-wide random generator
produce different strings. -/
theorem generate_simulated_response_depends_on_rng :
    generate_simulated_response "hola" "chatgpt" "Bot" 0 ≠
      generate_simulated_response "hola" "chatgpt" "Bot" 1 := by
  decide

/-- C3 (amended): the responder is deterministic only relative to the
random draw it consumes: with the same three arguments and the same
template index (the draw modulo the three templates per category) it
returns the same string. -/
theorem generate_simulated_response_deterministic_given_rng :
    ∀ (m t n : String) (r1 r2 : Nat), r1 % 3 = r2 % 3 →
      generate_simulated_response m t n r1 =
        generate_simulated_response m t n r2 := by
  intro m t n r1 r2 h
  simp only [generate_simulated_response, templates_for_length]
  rw [h]

/-- Closed instance of the amended C3 theorem at concrete arguments and
two draws with equal residue. -/
theorem generate_simulated_response_deterministic_given_rng_witness :
    generate_simulated_response "hola" "chatgpt" "Bot" 2 =
      generate_simulated_response "hola" "chatgpt" "Bot" 5 :=
  generate_simulated_response_deterministic_given_rng "hola" "chatgpt" "Bot" 2 5
    (by decide)

/-- Concrete page for the C4 counterexample: the first response
candidate matches two elements, an earlier long one and a last short
one. -/
def pageLastShort : Page where
  navOk := true
  present := fun _ => none
  findElement := fun _ => none
  findElements := fun s =>
    if s = ".markdown.prose" then
      [{ text := "esta respuesta es suficientemente larga", displayed := true,
         enabled := true },
       { text := "ok", displayed := true, enabled := true }]
    else []
  sendXPathButton := none
  bodyText := ""

/-- C4 counterexample: a candidate with at least one matching element
whose trimmed text exceeds the threshold does not make resolution
succeed — the code checks only the last element in document order, so
with a short last element the candidate is skipped and, all other
candidates matching nothing, resolution fails. -/
theorem response_container_ignores_earlier_long_element :
    (pageLastShort.findElements ".markdown.prose").map Element.text =
      ["esta respuesta es suficientemente larga", "ok"] ∧
    (pyStrip "esta respuesta es suficientemente larga").length > 10 ∧
    extractResponse pageLastShort response_selectors = none := by
  exact ⟨rfl, by decide, by decide⟩

/-- C4 (amended): a ResponseContainer candidate succeeds exactly when
its last matching element in document order has trimmed text that is
non-empty and longer than 10 characters, and that text is what is
returned; a candidate whose last element fails the threshold (or which
matches nothing) is a non-match and resolution moves to the next
candidate; exhaustion of all candidates yields a failed (none)
resolution. -/
theorem response_container_resolution_last_element :
    ∀ (page : Page) (s : String) (rest : List String) (t : String)
      (e : Element) (es : List Element),
      (candidateText page s = some t →
        extractResponse page (s :: rest) = some t) ∧
      (candidateText page s = none →
        extractResponse page (s :: rest) = extractResponse page rest) ∧
      (page.findElements s = e :: es → candidateText page s = some t →
        t = pyStrip (es.getLastD e).text ∧ t ≠ "" ∧ t.length > 10) ∧
      (page.findElements s = e :: es →
        (pyStrip (es.getLastD e).text).length > 10 →
        candidateText page s = some (pyStrip (es.getLastD e).text)) ∧
      (page.findElements s = e :: es →
        ¬ (pyStrip (es.getLastD e).text).length > 10 →
        candidateText page s = none) ∧
      (∀ sels : List String, (∀ s2 ∈ sels, candidateText page s2 = none) →
        extractResponse page sels = none) := by
  intro page s rest t e es
  refine ⟨?_, ?_, ?_, ?_, ?_, ?_⟩
  · intro h
    unfold extractResponse
    rw [h]
  · intro h
    conv_lhs => rw [extractResponse]
    rw [h]
  · intro hfe h
    exact ⟨candidateText_some_last hfe h, candidateText_some h⟩
  · intro hfe hlen
    have hne : pyStrip (es.getLastD e).text ≠ "" := by
      intro heq
      rw [heq] at hlen
      exact absurd hlen (by decide)
    unfold candidateText
    rw [hfe]
    dsimp only
    rw [if_pos ⟨hne, hlen⟩]
  · intro hfe hlen
    unfold candidateText
    rw [hfe]
    dsimp only
    rw [if_neg]
    intro hc
    exact hlen hc.2
  · intro sels h
    induction sels with
    | nil => rfl
    | cons s2 rest2 ih =>
      unfold extractResponse
      rw [h s2 (List.mem_cons_self s2 rest2)]
      exact ih (fun x hx => h x (List.mem_cons_of_mem s2 hx))

/-- Closed instance of the amended C4 theorem, in both directions: on a
concrete page whose candidate has a single long element the candidate
succeeds with that element's trimmed text, and on the concrete page
with a short last element exhausting all candidates yields a failed
resolution; every hypothesis discharged by computation. -/
theorem response_container_resolution_last_element_witness :
    candidateText pageChatOk ".markdown.prose" =
      some (pyStrip "Esta es una respuesta larga") ∧
    extractResponse pageLastShort response_selectors = none :=
  ⟨(response_container_resolution_last_element pageChatOk ".markdown.prose" [] ""
      { text := "Esta es una respuesta larga", displayed := true, enabled := true }
      []).2.2.2.1 (by decide) (by decide),
   (response_container_resolution_last_element pageLastShort "" [] ""
      { text := "", displayed := false, enabled := false } []).2.2.2.2.2
      response_selectors (by decide)⟩

/-- Concrete page for the C5 counterexample: the first text-area
candidate is present but disabled while the second candidate is present
and enabled. -/
def pageDisabledFirst : Page where
  navOk := true
  present := fun s =>
    if s = "textarea[placeholder*=\x27Message\x27]" then
      some { text := "first", displayed := true, enabled := false }
    else if s = "textarea[data-id=\x27root\x27]" then
      some { text := "second", displayed := true, enabled := true }
    else none
  findElement := fun _ => none
  findElements := fun _ => []
  sendXPathButton := none
  bodyText := ""

/-- C5 counterexample: input-field resolution does not require an
enabled element — with the first candidate present but disabled and a
later candidate present and enabled, the resolver returns the disabled
element of the first candidate, not the first candidate matching a
live, enabled element. -/
theorem input_field_resolution_ignores_enabled_state :
    resolveTextArea pageDisabledFirst text_selectors =
      some { text := "first", displayed := true, enabled := false } ∧
    (({ text := "first", displayed := true, enabled := false } : Element)).enabled
      = false ∧
    pageDisabledFirst.present "textarea[data-id=\x27root\x27]" =
      some { text := "second", displayed := true, enabled := true } := by
  exact ⟨rfl, rfl, rfl⟩

/-- C5 (amended): resolution is strict ordered fallback with the
candidate order fixed and no scoring, but the per-candidate predicate
differs by role: input-field resolution takes the first candidate with
a present element, regardless of its enabled state, while
submit-control resolution takes the first candidate whose element
reports enabled; in both roles an earlier matching candidate always
beats every later one, and a non-matching candidate defers to the rest
of the list. -/
theorem selector_resolution_first_match :
    ∀ (page : Page) (s : String) (rest : List String) (e b : Element)
      (acc : Option Element),
      (page.present s = some e →
        resolveTextArea page (s :: rest) = some e) ∧
      (page.present s = none →
        resolveTextArea page (s :: rest) = resolveTextArea page rest) ∧
      (page.findElement s = some b → b.enabled = true →
        findSendButtonAux page acc (s :: rest) = some b) ∧
      (page.findElement s = none →
        findSendButtonAux page acc (s :: rest) =
          findSendButtonAux page acc rest) ∧
      (page.findElement s = some b → b.enabled = false →
        findSendButtonAux page acc (s :: rest) =
          findSendButtonAux page (some b) rest) := by
  intro page s rest e b acc
  refine ⟨?_, ?_, ?_, ?_, ?_⟩
  · intro h
    conv_lhs => rw [resolveTextArea]
    rw [h]
  · intro h
    conv_lhs => rw [resolveTextArea]
    rw [h]
  · intro h hb
    conv_lhs => rw [findSendButtonAux]
    rw [h]
    simp [hb]
  · intro h
    conv_lhs => rw [findSendButtonAux]
    rw [h]
  · intro h hb
    conv_lhs => rw [findSendButtonAux]
    rw [h]
    simp [hb]

/-- Closed instance of the amended C5 theorem: on the concrete page the
first present candidate wins immediately. -/
theorem selector_resolution_first_match_witness :
    resolveTextArea pageDisabledFirst text_selectors =
      some { text := "first", displayed := true, enabled := false } :=
  (selector_resolution_first_match pageDisabledFirst
    "textarea[placeholder*=\x27Message\x27]"
    ["textarea[data-id=\x27root\x27]", "#prompt-textarea",
     "textarea[placeholder*=\x27Send a message\x27]", ".prose textarea",
     "div[contenteditable=\x27true\x27]"]
    { text := "first", displayed := true, enabled := false }
    { text := "", displayed := false, enabled := false } none).1 (by decide)

/-- When every send-button candidate that is found at all reports
disabled, the loop ends with none or with a disabled element left in
the loop variable. -/
lemma findSendButtonAux_all_disabled {page : Page} :
    ∀ (sels : List String) (acc : Option Element),
      (∀ s ∈ sels, ∀ b, page.findElement s = some b → b.enabled = false) →
      (∀ b, acc = some b → b.enabled = false) →
      (findSendButtonAux page acc sels = none ∨
        ∃ b, findSendButtonAux page acc sels = some b ∧ b.enabled = false) := by
  intro sels
  induction sels with
  | nil =>
    intro acc _h hacc
    cases acc with
    | none => exact Or.inl rfl
    | some b => exact Or.inr ⟨b, rfl, hacc b rfl⟩
  | cons s rest ih =>
    intro acc h hacc
    rw [findSendButtonAux]
    cases hf : page.findElement s with
    | none =>
      exact ih acc (fun x hx => h x (List.mem_cons_of_mem s hx)) hacc
    | some b =>
      have hb : b.enabled = false := h s (List.mem_cons_self s rest) b hf
      dsimp only
      rw [hb]
      simp only [Bool.false_eq_true, if_false]
      exact ih (some b)
        (fun x hx => h x (List.mem_cons_of_mem s hx))
        (fun b0 h0 => by cases h0; exact hb)

/-- C6: in the specialized ChatGPT interaction the clicked submit
control always reports enabled, and if no send-button candidate
resolves to an enabled element the handler clicks nothing and fails
(returns no response). -/
theorem submit_control_enabled_before_click :
    ∀ (page : Page) (m : String),
      (∀ b, (handle_chatgpt_interaction page m).clicked = some b →
        b.enabled = true) ∧
      ((∀ s ∈ send_selectors, ∀ b, page.findElement s = some b →
          b.enabled = false) →
        (handle_chatgpt_interaction page m).response = none ∧
        (handle_chatgpt_interaction page m).clicked = none) := by
  intro page m
  constructor
  · intro b h
    unfold handle_chatgpt_interaction at h
    split at h
    · split at h
      · exact absurd h (by simp)
      · split at h
        · exact absurd h (by simp)
        · rename_i b0 _
          split at h
          · rename_i henb
            simp only at h
            cases h
            exact henb
          · exact absurd h (by simp)
    · exact absurd h (by simp)
  · intro hall
    have hres : handle_chatgpt_interaction page m =
        { response := none, clicked := none } := by
      unfold handle_chatgpt_interaction
      split
      · cases hta : resolveTextArea page text_selectors with
        | none => rfl
        | some ta =>
          dsimp only
          rcases findSendButtonAux_all_disabled send_selectors none hall
              (fun b h => nomatch h) with h1 | ⟨b, h1, h2⟩
          · rw [h1]
          · rw [h1]
            dsimp only
            rw [h2]
            simp only [Bool.false_eq_true, if_false]
      · rfl
    rw [hres]
    exact ⟨rfl, rfl⟩

/-- Closed instance of the C6 theorem on a concrete page where no send
button exists at all: nothing is clicked and the handler fails. -/
theorem submit_control_enabled_before_click_witness :
    (handle_chatgpt_interaction pageLastShort "hola").response = none ∧
    (handle_chatgpt_interaction pageLastShort "hola").clicked = none :=
  (submit_control_enabled_before_click pageLastShort "hola").2
    (fun _s _hs _b hb => nomatch hb)

/-- Whatever text the generic input loop returns is the trailing slice
of the page body text. -/
lemma genericLoop_some_eq {page : Page} :
    ∀ (sels : List String) (t : String),
      genericLoop page sels = some t → t = tail500 page.bodyText := by
  intro sels
  induction sels with
  | nil => intro t h; exact absurd h (by simp [genericLoop])
  | cons s rest ih =>
    intro t h
    rw [genericLoop] at h
    cases hf : page.findElement s with
    | none =>
      rw [hf] at h
      exact ih t h
    | some e =>
      rw [hf] at h
      dsimp only at h
      split at h
      · cases h; rfl
      · exact ih t h

/-- When no generic input candidate is found displayed and enabled, the
generic input loop fails. -/
lemma genericLoop_exhaust {page : Page} :
    ∀ sels : List String,
      (∀ s ∈ sels, ∀ e, page.findElement s = some e →
        (e.displayed && e.enabled) = false) →
      genericLoop page sels = none := by
  intro sels
  induction sels with
  | nil => intro _; rfl
  | cons s rest ih =>
    intro h
    rw [genericLoop]
    cases hf : page.findElement s with
    | none =>
      exact ih (fun x hx => h x (List.mem_cons_of_mem s hx))
    | some e =>
      dsimp only
      rw [h s (List.mem_cons_self s rest) e hf]
      simp only [Bool.false_eq_true, if_false]
      exact ih (fun x hx => h x (List.mem_cons_of_mem s hx))

/-- A body text of at most 500 characters is returned whole by the
trailing-slice operation. -/
lemma tail500_short {s : String} (h : s.length ≤ 500) : tail500 s = s := by
  unfold tail500
  rw [if_neg]
  omega

/-- Unfolding the character data of a packed dropped list. -/
lemma mk_drop_data (l : List Char) (n : Nat) :
    (String.mk (l.drop n)).data = l.drop n := rfl

/-- Length of a packed dropped list. -/
lemma mk_drop_length (l : List Char) (n : Nat) :
    (String.mk (l.drop n)).length = l.length - n := by
  show (l.drop n).length = l.length - n
  rw [List.length_drop]

/-- A body text longer than 500 characters is cut to its length-500
suffix by the trailing-slice operation. -/
lemma tail500_long {s : String} (h : s.length > 500) :
    (tail500 s).length = 500 ∧
    s.data.take (s.length - 500) ++ (tail500 s).data = s.data := by
  unfold tail500
  rw [if_pos h]
  constructor
  · rw [mk_drop_length]
    have hl : s.length = s.data.length := rfl
    omega
  · rw [mk_drop_data]
    exact List.take_append_drop _ _

/-- C7: on the generic path, the first candidate whose element is
found, displayed and enabled triggers extraction, and extraction
returns the trailing slice of the entire page body text, bounded to
500 characters (the full text when it is 500 characters or shorter, a
length-500 suffix otherwise); the strategy never consults a response
container, and the only fatal element absence is the input field: with
no usable input among the generic candidates the handler fails. -/
theorem generic_interaction_extracts_body_tail :
    ∀ (page : Page) (m s : String) (rest : List String) (e : Element)
      (t : String),
      page.navOk = true →
      ((page.findElement s = some e → (e.displayed && e.enabled) = true →
          genericLoop page (s :: rest) = some (tail500 page.bodyText)) ∧
        (handle_generic_interaction page m = some t →
          t = tail500 page.bodyText) ∧
        ((∀ s2 ∈ generic_text_selectors, ∀ e2,
            page.findElement s2 = some e2 →
            (e2.displayed && e2.enabled) = false) →
          handle_generic_interaction page m = none) ∧
        (page.bodyText.length ≤ 500 →
          tail500 page.bodyText = page.bodyText) ∧
        (page.bodyText.length > 500 →
          (tail500 page.bodyText).length = 500 ∧
          page.bodyText.data.take (page.bodyText.length - 500) ++
            (tail500 page.bodyText).data = page.bodyText.data)) := by
  intro page m s rest e t hnav
  refine ⟨?_, ?_, ?_, ?_, ?_⟩
  · intro hf hu
    rw [genericLoop, hf]
    dsimp only
    rw [hu]
    simp only [if_true]
  · intro h
    rw [handle_generic_interaction, hnav] at h
    simp only [if_true] at h
    exact genericLoop_some_eq generic_text_selectors t h
  · intro h
    rw [handle_generic_interaction, hnav]
    simp only [if_true]
    exact genericLoop_exhaust generic_text_selectors h
  · intro hle
    exact tail500_short hle
  · intro hgt
    exact tail500_long hgt

/-- Closed instance of the C7 theorem: on the concrete page the first
generic candidate is usable and the handler returns the (short, hence
whole) body text. -/
theorem generic_interaction_extracts_body_tail_witness :
    genericLoop pageShortBody generic_text_selectors =
      some (tail500 pageShortBody.bodyText) :=
  (generic_interaction_extracts_body_tail pageShortBody "hola" "textarea"
    ["input[type=\x27text\x27]", "div[contenteditable=\x27true\x27]",
     "[role=\x27textbox\x27]"]
    { text := "", displayed := true, enabled := true } "" rfl).1
    (by decide) (by decide)

/-- C8: get_agent_response is total over failures — the returned
dictionary always carries a boolean success flag; whenever that flag is
false an error description string is present; a driver-provisioning
failure yields the driver error, a navigation failure yields a failed
outcome; and the degraded-mode service likewise always returns a
dictionary with a boolean success flag. In the embedding both
operations are total Lean functions, so no exception ever reaches the
caller. -/
theorem get_agent_response_never_raises :
    ∀ (env : SeleniumEnv) (url msg : String) (aid : Option String)
      (senv : SimpleEnv),
      (∃ b, dlookup (get_agent_response env url msg aid) "success" =
        some (JVal.jbool b)) ∧
      (dlookup (get_agent_response env url msg aid) "success" =
          some (JVal.jbool false) →
        ∃ e, dlookup (get_agent_response env url msg aid) "error" =
          some (JVal.jstr e)) ∧
      (env.driverPresent = false → env.setupOk = false →
        dlookup (get_agent_response env url msg aid) "success" =
          some (JVal.jbool false) ∧
        dlookup (get_agent_response env url msg aid) "error" =
          some (JVal.jstr "No se pudo configurar el driver de navegador")) ∧
      (env.page.navOk = false →
        dlookup (get_agent_response env url msg aid) "success" =
          some (JVal.jbool false)) ∧
      (∃ b, dlookup (simple_get_agent_response senv url msg aid) "success" =
        some (JVal.jbool b)) := by
  intro env url msg aid senv
  refine ⟨?_, ?_, ?_, ?_, ⟨true, rfl⟩⟩
  · rcases get_agent_response_cases env url msg aid with ⟨e, he⟩ | ⟨r, _, _, he⟩
    · exact ⟨false, by rw [he]; rfl⟩
    · exact ⟨true, by rw [he]; rfl⟩
  · intro hs
    rcases get_agent_response_cases env url msg aid with ⟨e, he⟩ | ⟨r, _, _, he⟩
    · exact ⟨e, by rw [he]; rfl⟩
    · rw [he] at hs
      simp [dlookup] at hs
  · intro h1 h2
    unfold get_agent_response
    rw [if_pos (by simp [h1, h2])]
    exact ⟨rfl, rfl⟩
  · intro hnav
    have hchat : (handle_chatgpt_interaction env.page msg).response = none := by
      unfold handle_chatgpt_interaction
      rw [hnav]
      rfl
    have hgen : handle_generic_interaction env.page msg = none := by
      unfold handle_generic_interaction
      rw [hnav]
      rfl
    unfold get_agent_response
    by_cases hd : (!env.driverPresent && !env.setupOk) = true
    · rw [if_pos hd]
      rfl
    · rw [if_neg hd]
      by_cases hc : detect_agent_type url = "chatgpt"
      · rw [if_pos hc, hchat]
        rfl
      · rw [if_neg hc, hgen]
        rfl

/-- Concrete environment whose driver cannot be provisioned, used for
closed instances of the failure-path theorems. -/
def envNoDriver : SeleniumEnv where
  driverPresent := false
  setupOk := false
  page := pageShortBody
  now := 0

/-- Closed instance of the C8 theorem: with driver provisioning failing
the call still returns a dictionary with success false and the driver
error description. -/
theorem get_agent_response_never_raises_witness :
    dlookup (get_agent_response envNoDriver "https://example.com" "hola" none)
      "success" = some (JVal.jbool false) ∧
    dlookup (get_agent_response envNoDriver "https://example.com" "hola" none)
      "error" =
      some (JVal.jstr "No se pudo configurar el driver de navegador") :=
  (get_agent_response_never_raises envNoDriver "https://example.com" "hola"
    none { rng := 0, t0 := 0, t1 := 0, t2 := 0 }).2.2.1 rfl rfl

/-- C9 counterexample: the failure dictionary returned when driver
provisioning fails is serialized with only success, error and response
— it has no agent_type, agent_id or timestamp field, contradicting the
claim that every result carries all six fields. -/
theorem failure_outcome_missing_claimed_fields :
    dkeys (get_agent_response envNoDriver "https://example.com" "hola" none) =
      ["success", "error", "response"] ∧
    dlookup (get_agent_response envNoDriver "https://example.com" "hola" none)
      "agent_type" = none ∧
    dlookup (get_agent_response envNoDriver "https://example.com" "hola" none)
      "timestamp" = none := by
  exact ⟨rfl, rfl, rfl⟩

/-- C9 (amended): a successful Selenium-path result is serialized with
exactly success, response, agent_type, agent_id and timestamp (no error
field); every failure result is serialized with exactly success, error
and response; and the degraded-mode path serializes exactly success,
response, agent_type, agent_id, agent_name, timestamp, processing_time
and method. -/
theorem result_serialized_fields :
    ∀ (env : SeleniumEnv) (url msg : String) (aid : Option String)
      (senv : SimpleEnv),
      (dlookup (get_agent_response env url msg aid) "success" =
          some (JVal.jbool true) →
        dkeys (get_agent_response env url msg aid) =
          ["success", "response", "agent_type", "agent_id", "timestamp"]) ∧
      (dlookup (get_agent_response env url msg aid) "success" =
          some (JVal.jbool false) →
        dkeys (get_agent_response env url msg aid) =
          ["success", "error", "response"]) ∧
      dkeys (simple_get_agent_response senv url msg aid) =
        ["success", "response", "agent_type", "agent_id", "agent_name",
         "timestamp", "processing_time", "method"] := by
  intro env url msg aid senv
  refine ⟨?_, ?_, rfl⟩
  · intro hs
    rcases get_agent_response_cases env url msg aid with ⟨e, he⟩ | ⟨r, _, _, he⟩
    · rw [he] at hs
      simp [dlookup] at hs
    · rw [he]
      rfl
  · intro hs
    rcases get_agent_response_cases env url msg aid with ⟨e, he⟩ | ⟨r, _, _, he⟩
    · rw [he]
      rfl
    · rw [he] at hs
      simp [dlookup] at hs

/-- Closed instance of the amended C9 theorem on a concrete successful
interaction, discharging the success-flag hypothesis by computation. -/
theorem result_serialized_fields_witness :
    dkeys (get_agent_response envChatOk "https://chatgpt.com/g/x" "hola" none) =
      ["success", "response", "agent_type", "agent_id", "timestamp"] :=
  (result_serialized_fields envChatOk "https://chatgpt.com/g/x" "hola" none
    { rng := 0, t0 := 0, t1 := 0, t2 := 0 }).1 (by decide)

/-- C10: the degraded-mode service never touches the target page — for
every input it returns success true, method simulated_contextual, and
a response produced by the simulated responder from the message, the
URL classification and the extracted agent name; reachability of the
URL plays no role (the embedding of this path takes no page state at
all). -/
theorem simple_service_always_simulated :
    ∀ (senv : SimpleEnv) (url msg : String) (aid : Option String),
      dlookup (simple_get_agent_response senv url msg aid) "success" =
        some (JVal.jbool true) ∧
      dlookup (simple_get_agent_response senv url msg aid) "method" =
        some (JVal.jstr "simulated_contextual") ∧
      dlookup (simple_get_agent_response senv url msg aid) "response" =
        some (JVal.jstr (generate_simulated_response msg
          (simple_detect_agent_type url) (extract_agent_name url) senv.rng)) := by
  intro senv url msg aid
  exact ⟨rfl, rfl, rfl⟩

end AgentSvc
